import Mathlib

/-!
Shallow embedding of the tnstc-location-api position-update pipeline.

Sources embedded:
 * src/index.js — the websocket message handler, the stop query handler and
   the current updateBusLocation (whose stop-passage section reads the
   undeclared identifiers busData and passedStops).
 * src/unnamed/part_000 (first draft variant) — the draft updateBusLocation
   whose stop-passage recording and persistence code is executable end to end.
 * src/model/scheduledbus.model.js — the ScheduledBus document shape.

Numbers are modelled as exact rationals (JS float64 rounding is not at issue
in any claim).  JS undefined and null are modelled as Option; falsiness of a
number is the test against 0, falsiness of a string the test against the
empty string.  Times are naturals (milliseconds, as produced by getTime).

The great-circle distance helper haversineDistance and the speed helper
calculateSpeed live in src/utils/time.js, which is not part of the sources;
the distance function is therefore kept abstract (a parameter of type Dist
threaded through every embedded function) and calculateSpeed is modelled
from the spec (see its doc comment).
-/

/-- Abstract type of the distance helper: latA → lngA → latB → lngB →
kilometers.  Modelled from the spec: src/utils/time.js (haversineDistance)
is not under src/; the spec describes it as the haversine great-circle
formula on radius 6371 km, a pure function.  Its closed form is
trigonometric, so the embedding keeps it as an opaque-value parameter:
every theorem below quantifies over an arbitrary such function, which is
sound because no settled claim depends on the particular formula. -/
abbrev HDist : Type := ℚ → ℚ → ℚ → ℚ → ℚ

/-- Geographic coordinate, the coordinates field of a bus stop document.
Modelled from the spec: src/model/stops.model.js is not under src/; the
spec says a Stop carries a geographic coordinate (latitude, longitude). -/
structure Coordinates where
  lat : ℚ
  lng : ℚ
deriving DecidableEq

/-- A bus stop document.  Modelled from the spec: src/model/stops.model.js
is not under src/; the spec gives a Stop an identity and a coordinate.
The coordinate object is modelled as always present (the schema owns it);
the JS falsiness checks on coordinates.lat and coordinates.lng remain in
the embedding as tests against 0. -/
structure BusStop where
  _id : String
  coordinates : Coordinates
deriving DecidableEq

/-- One entry of route.stops: a reference to a stop (src/index.js line 121
reads route.stops.map of stop.stopId). -/
structure RouteStop where
  stopId : String
deriving DecidableEq

/-- A route document.  Modelled from the spec: src/model/route.model.js is
not under src/; the spec gives a Route an origin Stop, a destination Stop,
an ordered stop sequence and a total planned distance.  Fields are Options
because the JS code tests each for falsiness before use (src/index.js line
117).  origin and destination are populated stop documents at the point of
use. -/
structure Route where
  origin : Option BusStop
  destination : Option BusStop
  stops : Option (List RouteStop)
  totalDistance : Option ℚ
deriving DecidableEq

/-- The location subdocument of a ScheduledBus
(src/model/scheduledbus.model.js lines 72-86). -/
structure BusLocation where
  latitude : Option ℚ
  longitude : Option ℚ
  lastUpdated : Option ℕ
deriving DecidableEq

/-- One entry of the leftAt array (src/model/scheduledbus.model.js lines
52-62): a stop reference and a timestamp. -/
structure LeftAtEntry where
  stop : String
  time : ℕ
deriving DecidableEq

/-- A ScheduledBus document (src/model/scheduledbus.model.js), restricted
to the fields the embedded code reads or writes; route is the populated
route document (Option because the reference may fail to resolve), and
createdAt comes from the timestamps option of the schema. -/
structure ScheduledBus where
  _id : String
  route : Option Route
  location : BusLocation
  distanceTraveled : Option ℚ
  distanceRemaining : Option ℚ
  journeyCompletion : Option ℚ
  speed : Option ℚ
  leftAt : List LeftAtEntry
  status : String
  createdAt : ℕ
deriving DecidableEq

/-- The document store: the ScheduledBus collection and the BusStop
collection. -/
structure Store where
  buses : List ScheduledBus
  stops : List BusStop
deriving DecidableEq

/-- A thrown JS error: err carries the message of a thrown Error;
referenceError models the evaluation of an undeclared identifier. -/
inductive JsError where
  | err (msg : String)
  | referenceError (name : String)
deriving DecidableEq

/-- Replies the websocket message handler can produce for one inbound
message (src/index.js lines 19-86): an error object sent to the sender, a
busUpdate broadcast carrying the full roster, or a busStopResponse. -/
inductive Reply where
  | errorReply (msg : String)
  | busUpdate (buses : List ScheduledBus)
  | busStopResponse (buses : List ScheduledBus)
deriving DecidableEq

/-- ScheduledBus.findById: first document of the collection with the given
id. -/
def findById (db : Store) (id : String) : Option ScheduledBus :=
  db.buses.find? (fun b => b._id == id)

/-- BusStop.find with an id-membership filter (src/index.js line 121,
src/unnamed/part_000 line 116): the stop documents whose id occurs in the
given route.stops references, in collection order. -/
def fetchStops (db : Store) (rstops : List RouteStop) : List BusStop :=
  db.stops.filter (fun s => rstops.any (fun r => r.stopId == s._id))

/-- Number.prototype.toFixed(2) followed by the mongoose cast back to a
number: rounding to two decimal places, ties away from zero; the values it
is applied to in the source are all nonnegative, where this is rounding
half up. -/
def toFixed2 (x : ℚ) : ℚ :=
  (round (x * 100) : ℚ) / 100

/-- Step 1 of the update pipeline (src/index.js lines 138-143,
src/unnamed/part_000 lines 124-126): distance from the route origin to the
current fix. -/
def distanceFromOrigin (hdist : HDist) (origin : Coordinates) (lat lng : ℚ) : ℚ :=
  hdist origin.lat origin.lng lat lng

/-- Steps 2 and clamp (src/index.js lines 146-151 and 157,
src/unnamed/part_000 lines 128-130 and 133): distance from the current fix
to the destination, clamped below by 0. -/
def remainingDistance (hdist : HDist) (lat lng : ℚ) (dest : Coordinates) : ℚ :=
  max (hdist lat lng dest.lat dest.lng) 0

/-- Step 3 and clamp (src/index.js lines 154 and 158,
src/unnamed/part_000 lines 132 and 134): distance-from-origin over total
route distance as a percentage, clamped into the interval from 0 to 100. -/
def completionPercentage (hdist : HDist) (origin : Coordinates) (lat lng total : ℚ) : ℚ :=
  max 0 (min (distanceFromOrigin hdist origin lat lng / total * 100) 100)

/-- Modelled from the spec: src/utils/time.js (calculateSpeed) is not under
src/.  The spec says the speed is absent when no previous fix exists or the
current time does not strictly exceed the previous time, and otherwise is
the distance between the two fixes divided by the elapsed time in hours.
The call sites (src/index.js line 161) pass the previous fix fields and no
explicit current time; the embedding supplies the processing time now
(milliseconds) as the current time.  Absence is the JS null return,
modelled as none. -/
def calculateSpeed (hdist : HDist) (prevLat prevLng : Option ℚ) (prevTime : Option ℕ)
    (curLat curLng : ℚ) (curTime : ℕ) : Option ℚ :=
  match prevLat, prevLng, prevTime with
  | some pl, some pg, some pt =>
    if curTime ≤ pt then none
    else some (hdist pl pg curLat curLng / (((curTime : ℚ) - (pt : ℚ)) / 3600000))
  | _, _, _ => none

/-- The updateFields object handed to findByIdAndUpdate as a single $set.
speed is an Option because the source adds the speed key only when the
computed speed is not null (src/index.js line 173, src/unnamed/part_000
line 170); leftAt is an Option because only the draft variant writes it
(src/unnamed/part_000 line 167). -/
structure UpdateFields where
  latitude : ℚ
  longitude : ℚ
  lastUpdated : ℕ
  distanceTraveled : ℚ
  distanceRemaining : ℚ
  journeyCompletion : ℚ
  speed : Option ℚ
  leftAt : Option (List LeftAtEntry)
deriving DecidableEq

/-- Mongoose $set semantics of one updateFields object on one document:
every present key overwrites the stored field, an absent key leaves the
stored field untouched. -/
def applyFields (b : ScheduledBus) (f : UpdateFields) : ScheduledBus :=
  { b with
    location := { latitude := some f.latitude, longitude := some f.longitude,
                  lastUpdated := some f.lastUpdated }
    distanceTraveled := some f.distanceTraveled
    distanceRemaining := some f.distanceRemaining
    journeyCompletion := some f.journeyCompletion
    speed := match f.speed with
      | some v => some v
      | none => b.speed
    leftAt := match f.leftAt with
      | some l => l
      | none => b.leftAt }

/-- The collection after findByIdAndUpdate: the first document with the
given id receives the $set (document ids are unique in the store). -/
def storeUpdateFirst : List ScheduledBus → String → UpdateFields → List ScheduledBus
  | [], _, _ => []
  | b :: rest, id, f =>
    if b._id == id then applyFields b f :: rest
    else b :: storeUpdateFirst rest id f

/-- Stop-passage recording of the draft variant (src/unnamed/part_000 lines
140-157): find the first fetched stop strictly within the threshold 0.01 of
the current fix; if one is found and the leftAt log has no entry for its
id, append an entry for it, else leave the log unchanged. -/
def recordPassedStop (hdist : HDist) (lat lng : ℚ) (now : ℕ)
    (stops : List BusStop) (leftAt : List LeftAtEntry) : List LeftAtEntry :=
  match stops.find? (fun s =>
      decide (hdist lat lng s.coordinates.lat s.coordinates.lng < 1 / 100)) with
  | none => leftAt
  | some passedStop =>
    if leftAt.any (fun entry => entry.stop == passedStop._id) then leftAt
    else leftAt ++ [{ stop := passedStop._id, time := now }]

/-- The updateFields object of src/index.js lines 164-173: position,
toFixed2-formatted metrics, and the speed key only when the computed speed
is not null; no leftAt key ($set never touches it there). -/
def indexUpdateFields (hdist : HDist) (now : ℕ) (bus : ScheduledBus)
    (origin destination : BusStop) (total : ℚ) (lat lng : ℚ) : UpdateFields :=
  { latitude := lat
    longitude := lng
    lastUpdated := now
    distanceTraveled := toFixed2 (distanceFromOrigin hdist origin.coordinates lat lng)
    distanceRemaining := toFixed2 (remainingDistance hdist lat lng destination.coordinates)
    journeyCompletion := toFixed2 (completionPercentage hdist origin.coordinates lat lng total)
    speed := calculateSpeed hdist bus.location.latitude bus.location.longitude
      bus.location.lastUpdated lat lng now
    leftAt := none }

/-- The try block of updateBusLocation in src/index.js (lines 99-207).
The match chain mirrors the guard conditions in source order; numeric
falsiness is the test against 0.  After the guards pass, lines 133-173
compute the previous fix, the derived metrics and the updateFields object
(all pure, bound here to an unused local); line 177 then evaluates the
undeclared identifier busData, which in JS raises a ReferenceError, so
lines 178-207 — including the findByIdAndUpdate persistence call — are
unreachable and are not part of any run. -/
def updateBusLocationBody (hdist : HDist) (now : ℕ) (db : Store) (id : String)
    (lat lng : ℚ) : Store × Except JsError ScheduledBus :=
  match findById db id with
  | none => (db, .error (.err "Scheduled bus not found"))
  | some scheduledBus =>
    match scheduledBus.route with
    | none => (db, .error (.err "Route data is invalid or missing required details"))
    | some route =>
      -- line 117 short-circuits left to right over the route fields
      match route.origin with
      | none => (db, .error (.err "Route data is invalid or missing required details"))
      | some origin =>
        match route.destination with
        | none => (db, .error (.err "Route data is invalid or missing required details"))
        | some destination =>
          match route.stops with
          | none => (db, .error (.err "Route data is invalid or missing required details"))
          | some rstops =>
            match route.totalDistance with
            | none => (db, .error (.err "Route data is invalid or missing required details"))
            | some total =>
              if total = 0 then
                (db, .error (.err "Route data is invalid or missing required details"))
              else
                let stops := fetchStops db rstops
                if stops.isEmpty then (db, .error (.err "No stops found for this route"))
                else if origin.coordinates.lat = 0 ∨ origin.coordinates.lng = 0 then
                  (db, .error (.err "Origin coordinates are missing or invalid"))
                else if destination.coordinates.lat = 0 ∨ destination.coordinates.lng = 0 then
                  (db, .error (.err "Destination coordinates are missing or invalid"))
                else
                  let _updateFields :=
                    indexUpdateFields hdist now scheduledBus origin destination total lat lng
                  (db, .error (.referenceError "busData"))

/-- updateBusLocation of src/index.js: the try block, with the catch of
lines 208-211 replacing any thrown error by the single generic message it
rethrows. -/
def updateBusLocation (hdist : HDist) (now : ℕ) (db : Store) (id : String)
    (lat lng : ℚ) : Store × Except JsError ScheduledBus :=
  match updateBusLocationBody hdist now db id lat lng with
  | (db2, .ok b) => (db2, .ok b)
  | (db2, .error _) => (db2, .error (.err "Error updating bus location"))

/-- The updateFields object of the draft variant (src/unnamed/part_000
lines 159-170): as in src/index.js plus the leftAt array produced by the
stop-passage section. -/
def draft1UpdateFields (hdist : HDist) (now : ℕ) (bus : ScheduledBus)
    (origin destination : BusStop) (total : ℚ) (stops : List BusStop)
    (lat lng : ℚ) : UpdateFields :=
  { latitude := lat
    longitude := lng
    lastUpdated := now
    distanceTraveled := toFixed2 (distanceFromOrigin hdist origin.coordinates lat lng)
    distanceRemaining := toFixed2 (remainingDistance hdist lat lng destination.coordinates)
    journeyCompletion := toFixed2 (completionPercentage hdist origin.coordinates lat lng total)
    speed := calculateSpeed hdist bus.location.latitude bus.location.longitude
      bus.location.lastUpdated lat lng now
    leftAt := some (recordPassedStop hdist lat lng now stops bus.leftAt) }

/-- The try block of the draft updateBusLocation (src/unnamed/part_000
lines 98-183).  Identical guards to src/index.js up to the stop fetch
(this draft has no origin or destination coordinate checks); then the pure
metric, speed and stop-passage computations, then the single
findByIdAndUpdate $set write.  The write is the one store mutation; the
writeOk flag models whether the underlying persistence call succeeds — on
failure the store collaborator applies nothing and the call rejects. -/
def draft1Body (hdist : HDist) (now : ℕ) (writeOk : Bool) (db : Store)
    (id : String) (lat lng : ℚ) : Store × Except JsError ScheduledBus :=
  match findById db id with
  | none => (db, .error (.err "Scheduled bus not found"))
  | some scheduledBus =>
    match scheduledBus.route with
    | none => (db, .error (.err "Route data is invalid or missing required details"))
    | some route =>
      -- line 112 short-circuits left to right over the route fields
      match route.origin with
      | none => (db, .error (.err "Route data is invalid or missing required details"))
      | some origin =>
        match route.destination with
        | none => (db, .error (.err "Route data is invalid or missing required details"))
        | some destination =>
          match route.stops with
          | none => (db, .error (.err "Route data is invalid or missing required details"))
          | some rstops =>
            match route.totalDistance with
            | none => (db, .error (.err "Route data is invalid or missing required details"))
            | some total =>
              if total = 0 then
                (db, .error (.err "Route data is invalid or missing required details"))
              else
                let stops := fetchStops db rstops
                if stops.isEmpty then (db, .error (.err "No stops found for this route"))
                else
                  let f := draft1UpdateFields hdist now scheduledBus origin destination
                    total stops lat lng
                  if writeOk then
                    ({ buses := storeUpdateFirst db.buses id f, stops := db.stops },
                      .ok (applyFields scheduledBus f))
                  else (db, .error (.err "store write failed"))

/-- The draft updateBusLocation of src/unnamed/part_000: its try block with
the catch of lines 179-182 replacing any thrown error by the generic
message it rethrows. -/
def draft1UpdateBusLocation (hdist : HDist) (now : ℕ) (writeOk : Bool)
    (db : Store) (id : String) (lat lng : ℚ) : Store × Except JsError ScheduledBus :=
  match draft1Body hdist now writeOk db id lat lng with
  | (db2, .ok b) => (db2, .ok b)
  | (db2, .error _) => (db2, .error (.err "Error updating bus location"))

/-- An inbound locationUpdate message (src/index.js line 25): the three
destructured fields, each possibly absent. -/
structure LocationUpdateMsg where
  scheduledBusId : Option String
  latitude : Option ℚ
  longitude : Option ℚ
deriving DecidableEq

/-- The locationUpdate branch of the websocket message handler
(src/index.js lines 23-40 with the catch of lines 82-85): the falsiness
check on scheduledBusId (absent or empty string) and the
strictly-undefined checks on latitude and longitude produce the
Invalid-data reply; otherwise updateBusLocation runs — if it throws, the
surrounding catch sends the generic failure reply, and only on success is
the refreshed roster broadcast as a busUpdate. -/
def handleLocationUpdate (hdist : HDist) (now : ℕ) (db : Store)
    (msg : LocationUpdateMsg) : Store × Reply :=
  match msg.scheduledBusId, msg.latitude, msg.longitude with
  | some id, some lat, some lng =>
    if id = "" then (db, .errorReply "Invalid data format")
    else
      match updateBusLocation hdist now db id lat lng with
      | (db2, .ok _) => (db2, .busUpdate db2.buses)
      | (db2, .error _) => (db2, .errorReply "Failed to process request")
  | _, _, _ => (db, .errorReply "Invalid data format")

/-- The comparison the paginate call sorts by: createdAt ascending
(src/index.js line 51, sortBy createdAt:asc). -/
def createdLe (a b : ScheduledBus) : Prop :=
  a.createdAt ≤ b.createdAt

instance : DecidableRel createdLe :=
  fun a b => inferInstanceAs (Decidable (a.createdAt ≤ b.createdAt))

instance : IsTotal ScheduledBus createdLe :=
  ⟨fun a b => Nat.le_total a.createdAt b.createdAt⟩

instance : IsTrans ScheduledBus createdLe :=
  ⟨fun _ _ _ h1 h2 => Nat.le_trans h1 h2⟩

/-- Modelled from the spec: the paginate plugin (src/model/plugins) is not
under src/; the spec describes the query as ordered by trip creation time
ascending and paginated, and the call site (src/index.js lines 48-54)
passes page 1 and limit 10 over an unrestricted filter, so the first page
is the first ten documents of the collection in createdAt order. -/
def paginateFirstPage (db : Store) : List ScheduledBus :=
  (List.insertionSort createdLe db.buses).take 10

/-- Whether schedule.route.stops is readable (src/index.js line 64): a
schedule in the page whose route reference did not resolve, or whose route
has no stops array, makes the filter callback throw a TypeError. -/
def routeResolved (b : ScheduledBus) : Bool :=
  match b.route with
  | some r => r.stops.isSome
  | none => false

/-- The stop-membership test of src/index.js lines 64-66: some stop of the
route references the requested stop id. -/
def busServesStop (b : ScheduledBus) (sid : String) : Bool :=
  match b.route with
  | some r => (r.stops.getD []).any (fun st => st.stopId == sid)
  | none => false

/-- The busStopRequest branch of the websocket message handler
(src/index.js lines 42-80 with the catch of lines 82-85).  A falsy
busStopId (absent or empty) is rejected; otherwise the handler paginates
the whole collection FIRST (page 1, limit 10, createdAt ascending) and
only then filters that page by stop membership and, when a nonempty status
list is given, by status.  A page entry with an unresolved route makes the
filter callback throw, which the catch turns into the generic failure
reply.  The reply is a busStopResponse also when the filtered list is
empty. -/
def handleBusStopRequest (db : Store) (busStopId : Option String)
    (status : Option (List String)) : Reply :=
  match busStopId with
  | none => .errorReply "Bus stop ID is required"
  | some sid =>
    if sid = "" then .errorReply "Bus stop ID is required"
    else
      let page := paginateFirstPage db
      if page.all routeResolved then
        let filtered := page.filter (fun b => busServesStop b sid)
        let final :=
          match status with
          | some sts =>
            if sts.isEmpty then filtered
            else filtered.filter (fun b => sts.contains b.status)
          | none => filtered
        .busStopResponse final
      else .errorReply "Failed to process request"

instance {ε α : Type} [DecidableEq ε] [DecidableEq α] : DecidableEq (Except ε α) :=
  fun a b =>
    match a, b with
    | .error x, .error y =>
      if h : x = y then .isTrue (by rw [h])
      else .isFalse (fun hc => h (by injection hc))
    | .ok x, .ok y =>
      if h : x = y then .isTrue (by rw [h])
      else .isFalse (fun hc => h (by injection hc))
    | .error _, .ok _ => .isFalse (fun hc => by injection hc)
    | .ok _, .error _ => .isFalse (fun hc => by injection hc)

/-- A concrete distance function used by witnesses and counterexamples: the
taxicab distance on coordinate pairs (any function of the right type will
do, since the theorems quantify over the distance helper). -/
def hdist0 : HDist := fun a b c d => |a - c| + |b - d|

/-- A stop far away from every fix the witnesses use. -/
def stopFar : BusStop := { _id := "s1", coordinates := { lat := 5, lng := 5 } }

/-- A stop at the coordinate origin, within the draft proximity threshold
of the fixes the stop-passage witnesses use. -/
def stopNear : BusStop := { _id := "s1", coordinates := { lat := 0, lng := 0 } }

/-- A fully resolved route over the single stop reference s1. -/
def route0 : Route :=
  { origin := some { _id := "o1", coordinates := { lat := 1, lng := 1 } }
    destination := some { _id := "d1", coordinates := { lat := 10, lng := 1 } }
    stops := some [{ stopId := "s1" }]
    totalDistance := some 10 }

/-- A scheduled bus with a resolved route and no previous fix. -/
def bus0 : ScheduledBus :=
  { _id := "bus1", route := some route0
    location := { latitude := none, longitude := none, lastUpdated := none }
    distanceTraveled := none, distanceRemaining := none, journeyCompletion := none
    speed := none, leftAt := [], status := "Scheduled", createdAt := 0 }

/-- Store with the valid bus and the far stop. -/
def db0 : Store := { buses := [bus0], stops := [stopFar] }

/-- Store with the valid bus and the near stop. -/
def dbN : Store := { buses := [bus0], stops := [stopNear] }

/-- The bus0 document after the draft update at fix (2,1), time 5, under
hdist0: distance from origin 1, remaining 8, completion 10 percent, no
speed (no previous fix), no stop passed. -/
def bus0W : ScheduledBus :=
  { _id := "bus1", route := some route0
    location := { latitude := some 2, longitude := some 1, lastUpdated := some 5 }
    distanceTraveled := some 1, distanceRemaining := some 8
    journeyCompletion := some 10
    speed := none, leftAt := [], status := "Scheduled", createdAt := 0 }

/-- db0 after that update. -/
def db0W : Store := { buses := [bus0W], stops := [stopFar] }

/-- A second stop within the proximity threshold of the counterexample fix. -/
def stopB : BusStop := { _id := "s2", coordinates := { lat := 1/1000, lng := 0 } }

/-- A route over the two stop references s1 and s2. -/
def routeTwo : Route :=
  { origin := some { _id := "o1", coordinates := { lat := 1, lng := 1 } }
    destination := some { _id := "d1", coordinates := { lat := 10, lng := 1 } }
    stops := some [{ stopId := "s1" }, { stopId := "s2" }]
    totalDistance := some 10 }

/-- The valid bus, on the two-stop route. -/
def busTwo : ScheduledBus := { bus0 with route := some routeTwo }

/-- Store in which the fix (1/1000, 1/1000) is within the threshold of both
stops of the route. -/
def dbTwo : Store := { buses := [busTwo], stops := [stopNear, stopB] }

/-- The update object of the first counterexample run on dbTwo: time 3,
fix (1/1000, 1/1000). -/
def fieldsTwo : UpdateFields :=
  draft1UpdateFields hdist0 3 busTwo
    { _id := "o1", coordinates := { lat := 1, lng := 1 } }
    { _id := "d1", coordinates := { lat := 10, lng := 1 } } 10
    (fetchStops dbTwo [{ stopId := "s1" }, { stopId := "s2" }]) (1/1000) (1/1000)

/-- The dbTwo trip after that first run. -/
def busTwoAfter : ScheduledBus := applyFields busTwo fieldsTwo

/-- The dbTwo store after that first run. -/
def dbTwoAfter : Store :=
  Store.mk (storeUpdateFirst dbTwo.buses "bus1" fieldsTwo) dbTwo.stops

/-- The update object of the second counterexample run, on dbTwoAfter:
time 4, the same fix (1/1000, 1/1000). -/
def fieldsTwoSecond : UpdateFields :=
  draft1UpdateFields hdist0 4 busTwoAfter
    { _id := "o1", coordinates := { lat := 1, lng := 1 } }
    { _id := "d1", coordinates := { lat := 10, lng := 1 } } 10
    (fetchStops dbTwoAfter [{ stopId := "s1" }, { stopId := "s2" }]) (1/1000) (1/1000)

/-- An empty store: no trip resolves in it. -/
def dbEmpty : Store := { buses := [], stops := [] }

/-- A route lacking totalDistance. -/
def routeNoTotal : Route :=
  { origin := some { _id := "o1", coordinates := { lat := 1, lng := 1 } }
    destination := some { _id := "d1", coordinates := { lat := 10, lng := 1 } }
    stops := some [{ stopId := "s1" }]
    totalDistance := none }

/-- The bus, on the incomplete route. -/
def busBad : ScheduledBus := { bus0 with route := some routeNoTotal }

/-- Store holding the bus with the incomplete route. -/
def dbBad : Store := { buses := [busBad], stops := [stopFar] }

/-- The route of the first ten counterexample trips (it serves only stop
s1). -/
def routeOther : Route := route0

/-- The route of the eleventh counterexample trip: it serves stop s9. -/
def routeServes : Route :=
  { origin := some { _id := "o1", coordinates := { lat := 1, lng := 1 } }
    destination := some { _id := "d1", coordinates := { lat := 10, lng := 1 } }
    stops := some [{ stopId := "s9" }]
    totalDistance := some 10 }

/-- A trip with the given creation time on the given route. -/
def mkBus (i : ℕ) (r : Route) : ScheduledBus :=
  { _id := "b", route := some r
    location := { latitude := none, longitude := none, lastUpdated := none }
    distanceTraveled := none, distanceRemaining := none, journeyCompletion := none
    speed := none, leftAt := [], status := "Scheduled", createdAt := i }

/-- Eleven trips: the ten earliest do not serve stop s9, the eleventh (and
latest-created) does. -/
def db9 : Store :=
  { buses := [mkBus 1 routeOther, mkBus 2 routeOther, mkBus 3 routeOther,
      mkBus 4 routeOther, mkBus 5 routeOther, mkBus 6 routeOther,
      mkBus 7 routeOther, mkBus 8 routeOther, mkBus 9 routeOther,
      mkBus 10 routeOther, mkBus 11 routeServes]
    stops := [] }

theorem round_rat_mono {x y : ℚ} (h : x ≤ y) : round x ≤ round y := by
  rw [round_eq, round_eq]
  exact Int.floor_mono (by linarith)

theorem toFixed2_nonneg {x : ℚ} (h : 0 ≤ x) : 0 ≤ toFixed2 x := by
  unfold toFixed2
  have h1 : round (0 : ℚ) ≤ round (x * 100) := round_rat_mono (by nlinarith)
  rw [round_zero] at h1
  have h2 : (0 : ℚ) ≤ (round (x * 100) : ℚ) := by exact_mod_cast h1
  linarith

theorem toFixed2_le_100 {x : ℚ} (h : x ≤ 100) : toFixed2 x ≤ 100 := by
  unfold toFixed2
  have h1 : round (x * 100) ≤ round ((10000 : ℚ)) := round_rat_mono (by nlinarith)
  have h2 : round ((10000 : ℚ)) = (10000 : ℤ) := by
    exact_mod_cast round_natCast (α := ℚ) 10000
  rw [h2] at h1
  have h3 : (round (x * 100) : ℚ) ≤ (10000 : ℚ) := by exact_mod_cast h1
  linarith

theorem completionPercentage_mem (hdist : HDist) (origin : Coordinates)
    (lat lng total : ℚ) :
    0 ≤ completionPercentage hdist origin lat lng total ∧
      completionPercentage hdist origin lat lng total ≤ 100 := by
  unfold completionPercentage
  constructor
  · exact le_max_left 0 _
  · exact max_le (by norm_num) (min_le_right _ 100)

theorem remainingDistance_nonneg (hdist : HDist) (lat lng : ℚ) (dest : Coordinates) :
    0 ≤ remainingDistance hdist lat lng dest :=
  le_max_right _ 0

theorem applyFields_id (b : ScheduledBus) (f : UpdateFields) :
    (applyFields b f)._id = b._id := rfl

theorem applyFields_route (b : ScheduledBus) (f : UpdateFields) :
    (applyFields b f).route = b.route := rfl

theorem storeUpdateFirst_find? {l : List ScheduledBus} {id : String}
    {bus : ScheduledBus} (f : UpdateFields)
    (h : l.find? (fun b => b._id == id) = some bus) :
    (storeUpdateFirst l id f).find? (fun b => b._id == id)
      = some (applyFields bus f) := by
  induction l with
  | nil => simp at h
  | cons b rest ih =>
    by_cases hb : (b._id == id) = true
    · rw [List.find?_cons_of_pos (p := fun x : ScheduledBus => x._id == id) rest hb] at h
      injection h with h
      subst h
      unfold storeUpdateFirst
      rw [if_pos hb]
      exact List.find?_cons_of_pos _ (by simpa [applyFields_id] using hb)
    · rw [List.find?_cons_of_neg (p := fun x : ScheduledBus => x._id == id) rest hb] at h
      unfold storeUpdateFirst
      rw [if_neg hb]
      rw [List.find?_cons_of_neg (p := fun x : ScheduledBus => x._id == id)
        (storeUpdateFirst rest id f) hb]
      exact ih h

theorem recordPassedStop_append {hdist : HDist} {lat lng : ℚ} {now : ℕ}
    {stops : List BusStop} {leftAt : List LeftAtEntry} {stp : BusStop}
    (hf : stops.find? (fun s =>
        decide (hdist lat lng s.coordinates.lat s.coordinates.lng < 1 / 100)) = some stp)
    (hnew : leftAt.countP (fun e => e.stop == stp._id) = 0) :
    recordPassedStop hdist lat lng now stops leftAt
      = leftAt ++ [{ stop := stp._id, time := now }] := by
  unfold recordPassedStop
  rw [hf]
  have hany : leftAt.any (fun e => e.stop == stp._id) = false := by
    rw [List.any_eq_false]
    intro e he
    exact List.countP_eq_zero.mp hnew e he
  simp [hany]

theorem recordPassedStop_already {hdist : HDist} {lat lng : ℚ} {now : ℕ}
    {stops : List BusStop} {leftAt : List LeftAtEntry} {stp : BusStop}
    (hf : stops.find? (fun s =>
        decide (hdist lat lng s.coordinates.lat s.coordinates.lng < 1 / 100)) = some stp)
    (hrec : leftAt.any (fun e => e.stop == stp._id) = true) :
    recordPassedStop hdist lat lng now stops leftAt = leftAt := by
  unfold recordPassedStop
  rw [hf]
  simp [hrec]


theorem updateBusLocationBody_error (hdist : HDist) (now : ℕ) (db : Store)
    (id : String) (lat lng : ℚ) :
    ∃ e, updateBusLocationBody hdist now db id lat lng = (db, .error e) := by
  unfold updateBusLocationBody
  dsimp only
  repeat' split
  all_goals exact ⟨_, rfl⟩

theorem updateBusLocation_error (hdist : HDist) (now : ℕ) (db : Store)
    (id : String) (lat lng : ℚ) :
    updateBusLocation hdist now db id lat lng
      = (db, .error (.err "Error updating bus location")) := by
  obtain ⟨e, he⟩ := updateBusLocationBody_error hdist now db id lat lng
  unfold updateBusLocation
  rw [he]

theorem draft1_wrap_ok {hdist : HDist} {now : ℕ} {writeOk : Bool} {db : Store}
    {id : String} {lat lng : ℚ} {db2 : Store} {bus2 : ScheduledBus}
    (h : draft1Body hdist now writeOk db id lat lng = (db2, .ok bus2)) :
    draft1UpdateBusLocation hdist now writeOk db id lat lng = (db2, .ok bus2) := by
  unfold draft1UpdateBusLocation
  rw [h]

theorem draft1_ok_body {hdist : HDist} {now : ℕ} {writeOk : Bool} {db : Store}
    {id : String} {lat lng : ℚ} {db2 : Store} {bus2 : ScheduledBus}
    (h : draft1UpdateBusLocation hdist now writeOk db id lat lng = (db2, .ok bus2)) :
    draft1Body hdist now writeOk db id lat lng = (db2, .ok bus2) := by
  unfold draft1UpdateBusLocation at h
  split at h
  next heq =>
    cases h
    exact heq
  next heq => simp at h

theorem draft1Body_ok_intro (hdist : HDist) (now : ℕ) (db : Store) (id : String)
    (lat lng : ℚ) {bus : ScheduledBus} {route : Route} {origin destination : BusStop}
    {rstops : List RouteStop} {total : ℚ}
    (hfind : findById db id = some bus) (hroute : bus.route = some route)
    (ho : route.origin = some origin) (hd : route.destination = some destination)
    (hs : route.stops = some rstops) (ht : route.totalDistance = some total)
    (hnz : ¬ total = 0) (hne : (fetchStops db rstops).isEmpty = false) :
    draft1Body hdist now true db id lat lng
      = ({ buses := storeUpdateFirst db.buses id (draft1UpdateFields hdist now bus
              origin destination total (fetchStops db rstops) lat lng),
           stops := db.stops },
         .ok (applyFields bus (draft1UpdateFields hdist now bus origin destination
              total (fetchStops db rstops) lat lng))) := by
  unfold draft1Body
  simp only [hfind, hroute, ho, hd, hs, ht]
  rw [if_neg hnz, hne]
  simp

theorem draft1Body_cases (hdist : HDist) (now : ℕ) (writeOk : Bool) (db : Store)
    (id : String) (lat lng : ℚ) :
    (∃ e, draft1Body hdist now writeOk db id lat lng = (db, .error e)) ∨
    (∃ bus route origin destination rstops total,
      findById db id = some bus ∧ bus.route = some route ∧
      route.origin = some origin ∧ route.destination = some destination ∧
      route.stops = some rstops ∧ route.totalDistance = some total ∧
      ¬ total = 0 ∧ (fetchStops db rstops).isEmpty = false ∧ writeOk = true ∧
      draft1Body hdist now writeOk db id lat lng
        = ({ buses := storeUpdateFirst db.buses id (draft1UpdateFields hdist now bus
                origin destination total (fetchStops db rstops) lat lng),
             stops := db.stops },
           .ok (applyFields bus (draft1UpdateFields hdist now bus origin destination
                total (fetchStops db rstops) lat lng)))) := by
  rcases hfind : findById db id with - | bus
  · exact Or.inl ⟨.err "Scheduled bus not found",
      by unfold draft1Body; simp [hfind]⟩
  rcases hroute : bus.route with - | route
  · exact Or.inl ⟨.err "Route data is invalid or missing required details",
      by unfold draft1Body; simp [hfind, hroute]⟩
  rcases ho : route.origin with - | origin
  · exact Or.inl ⟨.err "Route data is invalid or missing required details",
      by unfold draft1Body; simp [hfind, hroute, ho]⟩
  rcases hd : route.destination with - | destination
  · exact Or.inl ⟨.err "Route data is invalid or missing required details",
      by unfold draft1Body; simp [hfind, hroute, ho, hd]⟩
  rcases hs : route.stops with - | rstops
  · exact Or.inl ⟨.err "Route data is invalid or missing required details",
      by unfold draft1Body; simp [hfind, hroute, ho, hd, hs]⟩
  rcases ht : route.totalDistance with - | total
  · exact Or.inl ⟨.err "Route data is invalid or missing required details",
      by unfold draft1Body; simp [hfind, hroute, ho, hd, hs, ht]⟩
  by_cases htz : total = 0
  · exact Or.inl ⟨.err "Route data is invalid or missing required details",
      by unfold draft1Body; simp [hfind, hroute, ho, hd, hs, ht, htz]⟩
  rcases hne : (fetchStops db rstops).isEmpty with - | -
  · rcases hw : writeOk with - | -
    · refine Or.inl ⟨.err "store write failed", ?_⟩
      unfold draft1Body
      simp [hfind, hroute, ho, hd, hs, ht, htz, hne]
    · refine Or.inr ⟨bus, route, origin, destination, rstops, total, rfl, hroute,
        ho, hd, hs, ht, htz, hne, rfl, ?_⟩
      unfold draft1Body
      simp [hfind, hroute, ho, hd, hs, ht, htz, hne]
  · refine Or.inl ⟨.err "No stops found for this route", ?_⟩
    unfold draft1Body
    simp [hfind, hroute, ho, hd, hs, ht, htz, hne]

/-- C1: for every accepted position update, the stored journeyCompletion
lies in the interval from 0 to 100 and the stored distanceRemaining is
nonnegative after processing.  Settled on the update variant whose
persistence path executes (the draft in src/unnamed/part_000; the clamping
computation is line-for-line the one of src/index.js lines 146-158): every
run that returns an updated trip stores a clamped journeyCompletion and a
nonnegative distanceRemaining, for every distance function and every
coordinate input. -/
theorem claim_C1 (hdist : HDist) (now : ℕ) (db : Store) (id : String)
    (lat lng : ℚ) (db2 : Store) (bus2 : ScheduledBus)
    (h : draft1UpdateBusLocation hdist now true db id lat lng = (db2, .ok bus2)) :
    ∃ c r : ℚ, bus2.journeyCompletion = some c ∧ 0 ≤ c ∧ c ≤ 100 ∧
      bus2.distanceRemaining = some r ∧ 0 ≤ r := by
  have hb := draft1_ok_body h
  rcases draft1Body_cases hdist now true db id lat lng with ⟨e, he⟩ |
    ⟨bus, route, origin, destination, rstops, total, hfind, hroute, ho, hd, hs, ht,
      htz, hne, -, hrun⟩
  · rw [hb] at he
    simp at he
  · rw [hb] at hrun
    have h2 := congrArg Prod.snd hrun
    simp only [] at h2
    have hbus : bus2 = applyFields bus (draft1UpdateFields hdist now bus origin
        destination total (fetchStops db rstops) lat lng) := by
      injection h2
    refine ⟨toFixed2 (completionPercentage hdist origin.coordinates lat lng total),
      toFixed2 (remainingDistance hdist lat lng destination.coordinates),
      ?_, ?_, ?_, ?_, ?_⟩
    · rw [hbus]; rfl
    · exact toFixed2_nonneg
        (completionPercentage_mem hdist origin.coordinates lat lng total).1
    · exact toFixed2_le_100
        (completionPercentage_mem hdist origin.coordinates lat lng total).2
    · rw [hbus]; rfl
    · exact toFixed2_nonneg (remainingDistance_nonneg hdist lat lng destination.coordinates)

/-- Witness for C1 at a concrete successful run: bus1 of db0 updated at fix
(2,1), time 5, under the taxicab distance. -/
theorem claim_C1_witness :
    ∃ c r : ℚ, bus0W.journeyCompletion = some c ∧ 0 ≤ c ∧ c ≤ 100 ∧
      bus0W.distanceRemaining = some r ∧ 0 ≤ r :=
  claim_C1 hdist0 5 db0 "bus1" 2 1 db0W bus0W (by
    norm_num [draft1UpdateBusLocation, draft1Body, findById, fetchStops, db0, bus0,
      route0, stopFar, hdist0, draft1UpdateFields, applyFields, storeUpdateFirst,
      recordPassedStop, calculateSpeed, toFixed2, distanceFromOrigin,
      remainingDistance, completionPercentage, db0W, bus0W, round_eq,
      List.find?, List.filter, List.any])

/-- C2: for every input — including a fully valid trip with a resolved
route and in-range coordinates — updateBusLocation in src/index.js throws
before reaching the persistence write, because its stop-passage section
reads the never-defined identifier busData (line 177; the write of lines
201-205, which also reads the never-defined passedStops, is unreachable).
Consequently a locationUpdate message never returns an updated trip, never
reaches the busUpdate broadcast and leaves the store untouched, and every
well-formed locationUpdate message gets the generic error reply. -/
theorem claim_C2 (hdist : HDist) (now : ℕ) (db : Store) (id : String)
    (lat lng : ℚ) (msg : LocationUpdateMsg) :
    updateBusLocation hdist now db id lat lng
        = (db, .error (.err "Error updating bus location")) ∧
    (∃ e, updateBusLocationBody hdist now db id lat lng = (db, .error e)) ∧
    (handleLocationUpdate hdist now db msg).1 = db ∧
    (∀ bs, (handleLocationUpdate hdist now db msg).2 ≠ Reply.busUpdate bs) ∧
    (∀ i a b, msg = ⟨some i, some a, some b⟩ → ¬ i = "" →
      (handleLocationUpdate hdist now db msg).2
        = .errorReply "Failed to process request") := by
  refine ⟨updateBusLocation_error hdist now db id lat lng,
    updateBusLocationBody_error hdist now db id lat lng, ?_, ?_, ?_⟩
  · rcases msg with ⟨sid, la, ln⟩
    rcases sid with - | i <;> rcases la with - | a <;> rcases ln with - | b <;>
      simp [handleLocationUpdate, updateBusLocation_error]
    by_cases hi : i = "" <;> simp [hi, updateBusLocation_error]
  · intro bs
    rcases msg with ⟨sid, la, ln⟩
    rcases sid with - | i <;> rcases la with - | a <;> rcases ln with - | b <;>
      simp [handleLocationUpdate, updateBusLocation_error]
    by_cases hi : i = "" <;> simp [hi, updateBusLocation_error]
  · intro i a b hmsg hi
    subst hmsg
    simp [handleLocationUpdate, hi, updateBusLocation_error]

/-- Witness for C2: a well-formed locationUpdate message for the fully
valid trip of db0 still gets the generic failure reply. -/
theorem claim_C2_witness :
    (handleLocationUpdate hdist0 5 db0 ⟨some "bus1", some 2, some 1⟩).2
      = .errorReply "Failed to process request" :=
  (claim_C2 hdist0 5 db0 "bus1" 2 1 ⟨some "bus1", some 2, some 1⟩).2.2.2.2
    "bus1" 2 1 rfl (by simp)

/-- C3 amended: stop-passage recording is idempotent for the stop the
search FINDS, in the variant whose recording code executes
(src/unnamed/part_000 lines 145-157; in src/index.js the corresponding
section, lines 187-198, is unreachable because line 177 throws first).
Two successive updates that each make the stop-passage search find the
same stop s — s is then the first fetched stop within the threshold at
both fixes — starting from a log with no entry for s, append exactly one
leftAt entry for s — the second update appends nothing — and a log with
no duplicate stop references stays free of duplicates.  The frozen,
purely geometric form of the claim is false of the code: a stop within
the threshold that is shadowed by an earlier-fetched in-threshold stop
gets no entry at all (see the counterexample). -/
theorem claim_C3 (hdist : HDist) (now1 now2 : ℕ) (db : Store) (id : String)
    (lat1 lng1 lat2 lng2 : ℚ) (bus : ScheduledBus) (route : Route)
    (origin destination : BusStop) (rstops : List RouteStop) (total : ℚ) (s : BusStop)
    (hfind : findById db id = some bus) (hroute : bus.route = some route)
    (ho : route.origin = some origin) (hd : route.destination = some destination)
    (hs : route.stops = some rstops) (ht : route.totalDistance = some total)
    (hnz : ¬ total = 0) (hne : (fetchStops db rstops).isEmpty = false)
    (hpass1 : (fetchStops db rstops).find? (fun x =>
        decide (hdist lat1 lng1 x.coordinates.lat x.coordinates.lng < 1 / 100)) = some s)
    (hpass2 : (fetchStops db rstops).find? (fun x =>
        decide (hdist lat2 lng2 x.coordinates.lat x.coordinates.lng < 1 / 100)) = some s)
    (hnew : bus.leftAt.countP (fun e => e.stop == s._id) = 0) :
    ∃ db1 bus1 db2 bus2,
      draft1UpdateBusLocation hdist now1 true db id lat1 lng1 = (db1, .ok bus1) ∧
      draft1UpdateBusLocation hdist now2 true db1 id lat2 lng2 = (db2, .ok bus2) ∧
      bus1.leftAt = bus.leftAt ++ [{ stop := s._id, time := now1 }] ∧
      bus2.leftAt = bus1.leftAt ∧
      bus2.leftAt.countP (fun e => e.stop == s._id) = 1 ∧
      ((bus.leftAt.map LeftAtEntry.stop).Nodup →
        (bus2.leftAt.map LeftAtEntry.stop).Nodup) := by
  have hrun1 := draft1Body_ok_intro hdist now1 db id lat1 lng1 hfind hroute ho hd hs
    ht hnz hne
  have hleft1 : (applyFields bus (draft1UpdateFields hdist now1 bus origin destination
        total (fetchStops db rstops) lat1 lng1)).leftAt
      = bus.leftAt ++ [{ stop := s._id, time := now1 }] := by
    show recordPassedStop hdist lat1 lng1 now1 (fetchStops db rstops) bus.leftAt = _
    exact recordPassedStop_append hpass1 hnew
  have hfind2 : findById (Store.mk (storeUpdateFirst db.buses id
        (draft1UpdateFields hdist now1 bus origin destination total
          (fetchStops db rstops) lat1 lng1)) db.stops) id
      = some (applyFields bus (draft1UpdateFields hdist now1 bus origin destination
          total (fetchStops db rstops) lat1 lng1)) :=
    storeUpdateFirst_find? _ hfind
  have hroute2 : (applyFields bus (draft1UpdateFields hdist now1 bus origin
      destination total (fetchStops db rstops) lat1 lng1)).route = some route := by
    rw [applyFields_route]
    exact hroute
  have hrun2 := draft1Body_ok_intro hdist now2 (Store.mk (storeUpdateFirst db.buses id
      (draft1UpdateFields hdist now1 bus origin destination total
        (fetchStops db rstops) lat1 lng1)) db.stops) id lat2 lng2 hfind2
    hroute2 ho hd hs ht hnz hne
  have hany : (applyFields bus (draft1UpdateFields hdist now1 bus origin destination
      total (fetchStops db rstops) lat1 lng1)).leftAt.any
        (fun e => e.stop == s._id) = true := by
    rw [hleft1]
    simp
  have hleft2 : (applyFields (applyFields bus (draft1UpdateFields hdist now1 bus origin
        destination total (fetchStops db rstops) lat1 lng1))
        (draft1UpdateFields hdist now2 (applyFields bus (draft1UpdateFields hdist now1
          bus origin destination total (fetchStops db rstops) lat1 lng1)) origin
          destination total (fetchStops db rstops) lat2 lng2)).leftAt
      = (applyFields bus (draft1UpdateFields hdist now1 bus origin destination
          total (fetchStops db rstops) lat1 lng1)).leftAt := by
    show recordPassedStop hdist lat2 lng2 now2 (fetchStops db rstops) _ = _
    exact recordPassedStop_already hpass2 hany
  refine ⟨Store.mk (storeUpdateFirst db.buses id (draft1UpdateFields hdist now1 bus
      origin destination total (fetchStops db rstops) lat1 lng1)) db.stops,
    applyFields bus (draft1UpdateFields hdist now1 bus origin destination total
      (fetchStops db rstops) lat1 lng1),
    _,
    applyFields (applyFields bus (draft1UpdateFields hdist now1 bus origin
        destination total (fetchStops db rstops) lat1 lng1))
      (draft1UpdateFields hdist now2 (applyFields bus (draft1UpdateFields hdist now1
        bus origin destination total (fetchStops db rstops) lat1 lng1)) origin
        destination total (fetchStops db rstops) lat2 lng2),
    draft1_wrap_ok hrun1, draft1_wrap_ok hrun2, hleft1, hleft2,
    ?_, ?_⟩
  · rw [hleft2, hleft1]
    simp [List.countP_append, List.countP_cons, hnew]
  · intro hnd
    rw [hleft2, hleft1, List.map_append]
    refine List.Nodup.append hnd (by simp) ?_
    intro x hx hmem
    simp at hmem
    obtain ⟨e, he, hxe⟩ := List.mem_map.mp hx
    have hc := List.countP_eq_zero.mp hnew e he
    rw [← hxe] at hmem
    simp [hmem] at hc

/-- Witness for C3: two updates on dbN within the threshold of stop s1
(fixes at (0, 1/1000) and (1/1000, 0), taxicab distance 1/1000 from the
stop, below the 0.01 threshold). -/
theorem claim_C3_witness :
    ∃ db1 bus1 db2 bus2,
      draft1UpdateBusLocation hdist0 7 true dbN "bus1" 0 (1/1000) = (db1, .ok bus1) ∧
      draft1UpdateBusLocation hdist0 8 true db1 "bus1" (1/1000) 0 = (db2, .ok bus2) ∧
      bus1.leftAt = bus0.leftAt ++ [{ stop := stopNear._id, time := 7 }] ∧
      bus2.leftAt = bus1.leftAt ∧
      bus2.leftAt.countP (fun e => e.stop == stopNear._id) = 1 ∧
      ((bus0.leftAt.map LeftAtEntry.stop).Nodup →
        (bus2.leftAt.map LeftAtEntry.stop).Nodup) :=
  claim_C3 hdist0 7 8 dbN "bus1" 0 (1/1000) (1/1000) 0 bus0 route0
    { _id := "o1", coordinates := { lat := 1, lng := 1 } }
    { _id := "d1", coordinates := { lat := 10, lng := 1 } }
    [{ stopId := "s1" }] 10 stopNear rfl rfl rfl rfl rfl rfl (by norm_num)
    rfl
    (by
      have h : decide (|(1:ℚ)/1000| < 1/100) = true := by
        rw [decide_eq_true_eq, abs_of_pos] <;> norm_num
      norm_num [fetchStops, dbN, stopNear, List.find?, List.filter, hdist0, h])
    (by
      have h : decide (|(1:ℚ)/1000| < 1/100) = true := by
        rw [decide_eq_true_eq, abs_of_pos] <;> norm_num
      norm_num [fetchStops, dbN, stopNear, List.find?, List.filter, hdist0, h])
    rfl

/-- Counterexample to C3 as frozen: at the fix (1/1000, 1/1000) BOTH stops
s1 and s2 of the route are within the proximity threshold, so two
successive updates each place the vehicle within the threshold of stop s2;
yet s2 is shadowed by the earlier-fetched s1 in the stops.find search
(src/unnamed/part_000 line 141), and after both updates the StopLog holds
ZERO entries for s2 — not exactly one, as the claim requires. -/
theorem claim_C3_cx :
    hdist0 (1/1000) (1/1000) stopB.coordinates.lat stopB.coordinates.lng < 1/100 ∧
    busTwo.leftAt.countP (fun e => e.stop == stopB._id) = 0 ∧
    ((draft1UpdateBusLocation hdist0 4 true
        (draft1UpdateBusLocation hdist0 3 true dbTwo "bus1" (1/1000) (1/1000)).1
        "bus1" (1/1000) (1/1000)).2.map
      (fun b => b.leftAt.countP (fun e => e.stop == stopB._id))) = .ok 0 := by
  have hpass : (fetchStops dbTwo [{ stopId := "s1" }, { stopId := "s2" }]).find?
      (fun x => decide (hdist0 (1/1000) (1/1000) x.coordinates.lat
        x.coordinates.lng < 1/100)) = some stopNear := by
    have hfs : fetchStops dbTwo [{ stopId := "s1" }, { stopId := "s2" }]
        = [stopNear, stopB] := rfl
    rw [hfs]
    refine List.find?_cons_of_pos _ ?_
    rw [decide_eq_true_eq]
    norm_num [hdist0, stopNear, abs_of_pos]
  refine ⟨by norm_num [hdist0, stopB, abs_of_pos], rfl, ?_⟩
  have hrun1 := draft1Body_ok_intro hdist0 3 dbTwo "bus1" (1/1000) (1/1000)
    (rfl : findById dbTwo "bus1" = some busTwo)
    (rfl : busTwo.route = some routeTwo) rfl rfl rfl rfl (by norm_num) rfl
  have h1 : (draft1UpdateBusLocation hdist0 3 true dbTwo "bus1" (1/1000)
      (1/1000)).1 = dbTwoAfter := by
    rw [draft1_wrap_ok hrun1]
    rfl
  have hleft1 : busTwoAfter.leftAt = [{ stop := "s1", time := 3 }] := by
    show recordPassedStop hdist0 (1/1000) (1/1000) 3
      (fetchStops dbTwo [{ stopId := "s1" }, { stopId := "s2" }]) busTwo.leftAt = _
    rw [recordPassedStop_append hpass
      (rfl : busTwo.leftAt.countP (fun e => e.stop == stopNear._id) = 0)]
    rfl
  have hfind2 : findById dbTwoAfter "bus1" = some busTwoAfter :=
    storeUpdateFirst_find? fieldsTwo
      (rfl : dbTwo.buses.find? (fun b => b._id == "bus1") = some busTwo)
  have hany : busTwoAfter.leftAt.any (fun e => e.stop == stopNear._id) = true := by
    rw [hleft1]
    rfl
  have hleft2 : (applyFields busTwoAfter fieldsTwoSecond).leftAt
      = busTwoAfter.leftAt := by
    show recordPassedStop hdist0 (1/1000) (1/1000) 4
      (fetchStops dbTwoAfter [{ stopId := "s1" }, { stopId := "s2" }])
      busTwoAfter.leftAt = busTwoAfter.leftAt
    exact recordPassedStop_already hpass hany
  have hrun2 := draft1Body_ok_intro hdist0 4 dbTwoAfter "bus1" (1/1000) (1/1000)
    hfind2 (rfl : busTwoAfter.route = some routeTwo) rfl rfl rfl rfl
    (by norm_num) rfl
  rw [h1, draft1_wrap_ok hrun2]
  show Except.ok ((applyFields busTwoAfter fieldsTwoSecond).leftAt.countP
    (fun e => e.stop == stopB._id)) = Except.ok 0
  rw [hleft2, hleft1]
  rfl

theorem recordPassedStop_none {hdist : HDist} {lat lng : ℚ} {now : ℕ}
    {stops : List BusStop} {leftAt : List LeftAtEntry}
    (hf : stops.find? (fun s =>
        decide (hdist lat lng s.coordinates.lat s.coordinates.lng < 1 / 100)) = none) :
    recordPassedStop hdist lat lng now stops leftAt = leftAt := by
  unfold recordPassedStop
  rw [hf]

/-- Counterexample to C4: at the fix (1/1000, 1/1000) both stops s1 and s2
of the route are strictly within the draft threshold 0.01 (taxicab), the
log holds neither, yet the update appends only the first fetched one: the
resulting leftAt is exactly the single s1 entry — s2 is not appended, so
not every qualifying stop is appended. -/
theorem claim_C4_cx :
    hdist0 (1/1000) (1/1000) stopB.coordinates.lat stopB.coordinates.lng < 1/100 ∧
    busTwo.leftAt.countP (fun e => e.stop == stopB._id) = 0 ∧
    ((draft1UpdateBusLocation hdist0 3 true dbTwo "bus1" (1/1000) (1/1000)).2.map
        (fun b => b.leftAt))
      = .ok [{ stop := "s1", time := 3 }] := by
  have hpass : (fetchStops dbTwo [{ stopId := "s1" }, { stopId := "s2" }]).find?
      (fun x => decide (hdist0 (1/1000) (1/1000) x.coordinates.lat
        x.coordinates.lng < 1/100)) = some stopNear := by
    have hfs : fetchStops dbTwo [{ stopId := "s1" }, { stopId := "s2" }]
        = [stopNear, stopB] := rfl
    rw [hfs]
    refine List.find?_cons_of_pos _ ?_
    rw [decide_eq_true_eq]
    norm_num [hdist0, stopNear, abs_of_pos]
  refine ⟨?_, rfl, ?_⟩
  · norm_num [hdist0, stopB, abs_of_pos]
  · have hrun := draft1Body_ok_intro hdist0 3 dbTwo "bus1" (1/1000) (1/1000)
      (rfl : findById dbTwo "bus1" = some busTwo)
      (rfl : busTwo.route = some routeTwo) rfl rfl rfl rfl (by norm_num) rfl
    rw [draft1_wrap_ok hrun]
    show Except.ok (recordPassedStop hdist0 (1/1000) (1/1000) 3
      (fetchStops dbTwo [{ stopId := "s1" }, { stopId := "s2" }]) busTwo.leftAt) = _
    rw [recordPassedStop_append hpass
      (rfl : busTwo.leftAt.countP (fun e => e.stop == stopNear._id) = 0)]
    rfl

/-- C4 amended: in a single update at most one stop is appended — the
first stop in the fetched stop order strictly within the threshold — and
only when the log holds no entry for it; every appended entry is either an
old one or that single found stop.  (In src/index.js the whole section is
unreachable; this is the draft recording of src/unnamed/part_000 lines
140-157.) -/
theorem claim_C4_amended (hdist : HDist) (lat lng : ℚ) (now : ℕ)
    (stops : List BusStop) (leftAt : List LeftAtEntry) :
    (recordPassedStop hdist lat lng now stops leftAt).length ≤ leftAt.length + 1 ∧
    (∀ e, e ∈ recordPassedStop hdist lat lng now stops leftAt → e ∈ leftAt ∨
      ∃ stp, stops.find? (fun x => decide (hdist lat lng x.coordinates.lat
          x.coordinates.lng < 1 / 100)) = some stp ∧
        e = { stop := stp._id, time := now }) ∧
    (∀ stp, stops.find? (fun x => decide (hdist lat lng x.coordinates.lat
        x.coordinates.lng < 1 / 100)) = some stp →
      leftAt.countP (fun e => e.stop == stp._id) = 0 →
      recordPassedStop hdist lat lng now stops leftAt
        = leftAt ++ [{ stop := stp._id, time := now }]) := by
  rcases hf : stops.find? (fun x => decide (hdist lat lng x.coordinates.lat
      x.coordinates.lng < 1 / 100)) with - | stp
  · rw [recordPassedStop_none hf]
    refine ⟨Nat.le_succ _, fun e he => Or.inl he, fun stp2 heq hcount => ?_⟩
    rw [hf] at heq
    simp at heq
  · by_cases hrec : leftAt.any (fun e => e.stop == stp._id) = true
    · rw [recordPassedStop_already hf hrec]
      refine ⟨Nat.le_succ _, fun e he => Or.inl he, fun stp2 heq hcount => ?_⟩
      rw [hf] at heq
      injection heq with heq2
      subst heq2
      obtain ⟨e, he, hpe⟩ := List.any_eq_true.mp hrec
      exact absurd hpe (List.countP_eq_zero.mp hcount e he)
    · have hcount : leftAt.countP (fun e => e.stop == stp._id) = 0 :=
        List.countP_eq_zero.mpr (fun e he =>
          (List.any_eq_false.mp (Bool.eq_false_iff.mpr hrec)) e he)
      rw [recordPassedStop_append hf hcount]
      refine ⟨by simp, fun e he => ?_, fun stp2 heq hcount2 => ?_⟩
      · rcases List.mem_append.mp he with h1 | h1
        · exact Or.inl h1
        · simp at h1
          exact Or.inr ⟨stp, hf, h1⟩
      · rw [hf] at heq
        injection heq with heq2
        subst heq2
        rfl

/-- Witness for the amended C4 at the counterexample input: the single
appended entry is the first fetched stop within the threshold. -/
theorem claim_C4_witness :
    recordPassedStop hdist0 (1/1000) (1/1000) 3 [stopNear, stopB] []
      = [] ++ [{ stop := stopNear._id, time := 3 }] :=
  (claim_C4_amended hdist0 (1/1000) (1/1000) 3 [stopNear, stopB] []).2.2 stopNear
    (by
      refine List.find?_cons_of_pos _ ?_
      rw [decide_eq_true_eq]
      norm_num [hdist0, stopNear, abs_of_pos])
    rfl

/-- Counterexample to C5: latitude 999 is far outside the valid range, yet
the message is not rejected with the validation reply — the handler
processes it and replies with the generic processing failure instead (and
the store is unchanged only because the update always fails, not because
the input was validated). -/
theorem claim_C5_cx :
    (90 : ℚ) < 999 ∧
    handleLocationUpdate hdist0 5 db0 ⟨some "bus1", some 999, some 1⟩
        = (db0, .errorReply "Failed to process request") ∧
    Reply.errorReply "Failed to process request"
      ≠ Reply.errorReply "Invalid data format" := by
  refine ⟨by norm_num, ?_, by simp⟩
  simp [handleLocationUpdate, updateBusLocation_error]

/-- C5 amended: a locationUpdate whose scheduledBusId is falsy or whose
latitude or longitude is absent is rejected with the Invalid-data reply
and no state change; coordinates that are present but outside the valid
geographic range are NOT rejected by any validation — the update is
processed normally, and in src/index.js it then ends in the generic
failure reply, the store again unchanged. -/
theorem claim_C5_amended (hdist : HDist) (now : ℕ) (db : Store)
    (msg : LocationUpdateMsg) :
    ((msg.scheduledBusId = none ∨ msg.scheduledBusId = some "" ∨
        msg.latitude = none ∨ msg.longitude = none) →
      handleLocationUpdate hdist now db msg
        = (db, .errorReply "Invalid data format")) ∧
    (∀ i a b, msg = ⟨some i, some a, some b⟩ → ¬ i = "" →
      (a < -90 ∨ 90 < a ∨ b < -180 ∨ 180 < b) →
      handleLocationUpdate hdist now db msg
        = (db, .errorReply "Failed to process request")) := by
  constructor
  · intro hbad
    rcases msg with ⟨sid, la, ln⟩
    rcases sid with - | i
    · simp [handleLocationUpdate]
    rcases la with - | a
    · simp [handleLocationUpdate]
    rcases ln with - | b
    · simp [handleLocationUpdate]
    have hi : i = "" := by
      rcases hbad with h | h | h | h <;> simp_all
    subst hi
    simp [handleLocationUpdate]
  · rintro i a b hmsg hi -
    subst hmsg
    simp [handleLocationUpdate, hi, updateBusLocation_error]

/-- Witness for the amended C5: a missing latitude is rejected with the
validation reply; an out-of-range latitude gets the generic failure. -/
theorem claim_C5_witness :
    handleLocationUpdate hdist0 0 db0 ⟨some "bus1", none, some 1⟩
        = (db0, .errorReply "Invalid data format") ∧
    handleLocationUpdate hdist0 0 db0 ⟨some "bus1", some 999, some 1⟩
        = (db0, .errorReply "Failed to process request") :=
  ⟨(claim_C5_amended hdist0 0 db0 ⟨some "bus1", none, some 1⟩).1 (by simp),
   (claim_C5_amended hdist0 0 db0 ⟨some "bus1", some 999, some 1⟩).2 "bus1" 999 1
     rfl (by simp) (by norm_num)⟩

/-- C6: the derived speed is absent exactly when there is no previous fix
(previous latitude, longitude or timestamp missing) or the current time
does not strictly exceed the previous timestamp; otherwise it equals the
distance between the two fixes divided by the elapsed time in hours
(timestamps in milliseconds, hence the 3600000 divisor). -/
theorem claim_C6 (hdist : HDist) (prevLat prevLng : Option ℚ) (prevTime : Option ℕ)
    (curLat curLng : ℚ) (curTime : ℕ) :
    (calculateSpeed hdist prevLat prevLng prevTime curLat curLng curTime = none ↔
      (prevLat = none ∨ prevLng = none ∨ prevTime = none ∨
        ∃ t, prevTime = some t ∧ curTime ≤ t)) ∧
    (∀ pl pg t, prevLat = some pl → prevLng = some pg → prevTime = some t →
      t < curTime →
      calculateSpeed hdist prevLat prevLng prevTime curLat curLng curTime
        = some (hdist pl pg curLat curLng
            / (((curTime : ℚ) - (t : ℚ)) / 3600000))) := by
  constructor
  · rcases prevLat with - | pl <;> rcases prevLng with - | pg <;>
      rcases prevTime with - | t <;> simp [calculateSpeed]
  · intro pl pg t h1 h2 h3 hlt
    subst h1
    subst h2
    subst h3
    simp [calculateSpeed, Nat.not_le.mpr hlt]

/-- Witness for C6: with a previous fix at time 0 and the current fix one
hour later, the speed is the distance over one hour. -/
theorem claim_C6_witness :
    calculateSpeed hdist0 (some 0) (some 0) (some 0) 3 4 3600000
      = some (hdist0 0 0 3 4
          / ((((3600000 : ℕ) : ℚ) - ((0 : ℕ) : ℚ)) / 3600000)) :=
  (claim_C6 hdist0 (some 0) (some 0) (some 0) 3 4 3600000).2 0 0 0 rfl rfl rfl
    (by norm_num)

/-- C7: when the computed speed estimate is absent, the update object of
src/index.js lines 164-173 carries no speed key, so applying the $set
leaves the stored speed unchanged, while the position and the progress
fields are still set (and leftAt, for which the object has no key, is
untouched as well). -/
theorem claim_C7 (hdist : HDist) (now : ℕ) (bus : ScheduledBus)
    (origin destination : BusStop) (total lat lng : ℚ)
    (hsp : calculateSpeed hdist bus.location.latitude bus.location.longitude
      bus.location.lastUpdated lat lng now = none) :
    (applyFields bus (indexUpdateFields hdist now bus origin destination total
        lat lng)).speed = bus.speed ∧
    (applyFields bus (indexUpdateFields hdist now bus origin destination total
        lat lng)).location
      = { latitude := some lat, longitude := some lng, lastUpdated := some now } ∧
    (applyFields bus (indexUpdateFields hdist now bus origin destination total
        lat lng)).journeyCompletion
      = some (toFixed2 (completionPercentage hdist origin.coordinates lat lng total)) ∧
    (applyFields bus (indexUpdateFields hdist now bus origin destination total
        lat lng)).distanceRemaining
      = some (toFixed2 (remainingDistance hdist lat lng destination.coordinates)) ∧
    (applyFields bus (indexUpdateFields hdist now bus origin destination total
        lat lng)).distanceTraveled
      = some (toFixed2 (distanceFromOrigin hdist origin.coordinates lat lng)) ∧
    (applyFields bus (indexUpdateFields hdist now bus origin destination total
        lat lng)).leftAt = bus.leftAt := by
  refine ⟨?_, rfl, rfl, rfl, rfl, rfl⟩
  simp [applyFields, indexUpdateFields, hsp]

/-- Witness for C7 on a bus with no previous fix: the stored speed is left
unchanged by the update. -/
theorem claim_C7_witness :
    (applyFields bus0 (indexUpdateFields hdist0 5 bus0 stopFar stopFar 10 2 1)).speed
      = bus0.speed :=
  (claim_C7 hdist0 5 bus0 stopFar stopFar 10 2 1 rfl).1

theorem updateBusLocationBody_routeErr {hdist : HDist} {now : ℕ} {db : Store}
    {id : String} {lat lng : ℚ} {bus : ScheduledBus} {r : Route}
    (hf : findById db id = some bus) (hr : bus.route = some r)
    (hbad : r.origin = none ∨ r.destination = none ∨ r.stops = none ∨
      r.totalDistance = none ∨ r.totalDistance = some 0) :
    updateBusLocationBody hdist now db id lat lng
      = (db, .error (.err "Route data is invalid or missing required details")) := by
  unfold updateBusLocationBody
  rcases ho : r.origin with - | o
  · simp [hf, hr, ho]
  rcases hd : r.destination with - | d
  · simp [hf, hr, ho, hd]
  rcases hs : r.stops with - | st
  · simp [hf, hr, ho, hd, hs]
  rcases ht : r.totalDistance with - | t
  · simp [hf, hr, ho, hd, hs, ht]
  simp only [ho, hd, hs, ht] at hbad
  simp at hbad
  subst hbad
  simp [hf, hr, ho, hd, hs, ht]

/-- Counterexample to C8: a missing trip (empty store) and a trip whose
route lacks totalDistance throw distinct messages internally, but the
error the caller receives from updateBusLocation is the same generic one
in both cases — the reported error does not distinguish the two. -/
theorem claim_C8_cx :
    updateBusLocationBody hdist0 0 dbEmpty "bus1" 1 1
      = (dbEmpty, .error (.err "Scheduled bus not found")) ∧
    updateBusLocationBody hdist0 0 dbBad "bus1" 1 1
      = (dbBad, .error (.err "Route data is invalid or missing required details")) ∧
    (updateBusLocation hdist0 0 dbEmpty "bus1" 1 1).2
      = (updateBusLocation hdist0 0 dbBad "bus1" 1 1).2 := by
  refine ⟨rfl, ?_, ?_⟩
  · exact updateBusLocationBody_routeErr rfl rfl
      (Or.inr (Or.inr (Or.inr (Or.inl rfl))))
  · rw [updateBusLocation_error, updateBusLocation_error]

/-- C8 amended: processing fails in both cases — with the internal message
"Scheduled bus not found" when the trip does not resolve, and with the
internal message "Route data is invalid or missing required details" when
its route is missing or incompletely configured (the check is a falsiness
test, so totalDistance 0 also fails while a negative totalDistance would
pass) — but the catch rethrows one generic message, so the error reported
to the caller is identical in the two cases; the distinction survives only
in the logged message. -/
theorem claim_C8_amended (hdist : HDist) (now : ℕ) (db : Store) (id : String)
    (lat lng : ℚ) :
    (findById db id = none →
      updateBusLocationBody hdist now db id lat lng
        = (db, .error (.err "Scheduled bus not found"))) ∧
    (∀ bus, findById db id = some bus →
      (bus.route = none ∨ ∃ r, bus.route = some r ∧ (r.origin = none ∨
        r.destination = none ∨ r.stops = none ∨ r.totalDistance = none ∨
        r.totalDistance = some 0)) →
      updateBusLocationBody hdist now db id lat lng
        = (db, .error (.err "Route data is invalid or missing required details"))) ∧
    updateBusLocation hdist now db id lat lng
      = (db, .error (.err "Error updating bus location")) := by
  refine ⟨?_, ?_, updateBusLocation_error hdist now db id lat lng⟩
  · intro hf
    unfold updateBusLocationBody
    simp [hf]
  · intro bus hf hbad
    rcases hbad with hb | ⟨r, hr, hrb⟩
    · unfold updateBusLocationBody
      simp [hf, hb]
    · exact updateBusLocationBody_routeErr hf hr hrb

/-- Witness for the amended C8: both failure modes at concrete stores. -/
theorem claim_C8_witness :
    updateBusLocationBody hdist0 0 dbEmpty "bus2" 1 1
      = (dbEmpty, .error (.err "Scheduled bus not found")) ∧
    updateBusLocationBody hdist0 0 dbBad "bus1" 1 1
      = (dbBad, .error (.err "Route data is invalid or missing required details")) :=
  ⟨(claim_C8_amended hdist0 0 dbEmpty "bus2" 1 1).1 rfl,
   (claim_C8_amended hdist0 0 dbBad "bus1" 1 1).2.1 busBad rfl
     (Or.inr ⟨routeNoTotal, rfl, Or.inr (Or.inr (Or.inr (Or.inl rfl)))⟩)⟩

theorem mem_paginateFirstPage {db : Store} {b : ScheduledBus}
    (h : b ∈ paginateFirstPage db) : b ∈ db.buses := by
  unfold paginateFirstPage at h
  exact (List.perm_insertionSort createdLe db.buses).mem_iff.mp
    ((List.take_sublist 10 (List.insertionSort createdLe db.buses)).mem h)

theorem sorted_paginateFirstPage (db : Store) :
    List.Sorted createdLe (paginateFirstPage db) :=
  (List.sorted_insertionSort createdLe db.buses).sublist
    (List.take_sublist 10 (List.insertionSort createdLe db.buses))

/-- C9 amended: the handler paginates BEFORE filtering, so the reply is
the stop- and status-filter of the FIRST PAGE ONLY (the first ten trips of
the whole collection in createdAt ascending order), and not of all trips —
a trip that serves the stop but falls outside that page is omitted (the
counterexample shows one).  What does hold: for a present busStopId and a
page whose entries all have readable routes, the reply is a
busStopResponse containing exactly the first-page trips that serve the
stop and pass the status filter — every response element is such a trip
(soundness) and every such trip of the first page is in the response
(completeness) — listed in createdAt ascending order; and a stop served by
no trip at all yields the empty busStopResponse, a non-error reply. -/
theorem claim_C9_amended (db : Store) (sid : String) (status : Option (List String))
    (hsid : ¬ sid = "") (hres : (paginateFirstPage db).all routeResolved = true) :
    ∃ out, handleBusStopRequest db (some sid) status = .busStopResponse out ∧
      (∀ b, b ∈ out → busServesStop b sid = true ∧ b ∈ paginateFirstPage db ∧
        (∀ sts, status = some sts → ¬ sts.isEmpty = true →
          sts.contains b.status = true)) ∧
      (∀ b, b ∈ paginateFirstPage db → busServesStop b sid = true →
        (∀ sts, status = some sts → ¬ sts.isEmpty = true →
          sts.contains b.status = true) → b ∈ out) ∧
      List.Sorted createdLe out ∧
      ((∀ b, b ∈ db.buses → busServesStop b sid = false) → out = []) := by
  have hempty : (∀ b, b ∈ db.buses → busServesStop b sid = false) →
      (paginateFirstPage db).filter (fun b => busServesStop b sid) = [] := by
    intro hall
    exact List.filter_eq_nil_iff.mpr
      (fun b hb => by simp [hall b (mem_paginateFirstPage hb)])
  have hsorted : List.Sorted createdLe
      ((paginateFirstPage db).filter (fun b => busServesStop b sid)) :=
    (sorted_paginateFirstPage db).sublist (List.filter_sublist _)
  rcases status with - | sts
  · refine ⟨(paginateFirstPage db).filter (fun b => busServesStop b sid),
      ?_, ?_, ?_, hsorted, hempty⟩
    · simp [handleBusStopRequest, hsid, hres]
    · intro b hb
      obtain ⟨hmem, hserves⟩ := List.mem_filter.mp hb
      exact ⟨hserves, hmem, fun sts h => by cases h⟩
    · rintro b hb hs -
      exact List.mem_filter.mpr ⟨hb, hs⟩
  · by_cases hem : sts.isEmpty = true
    · refine ⟨(paginateFirstPage db).filter (fun b => busServesStop b sid),
        ?_, ?_, ?_, hsorted, hempty⟩
      · simp [handleBusStopRequest, hsid, hres, hem]
      · intro b hb
        obtain ⟨hmem, hserves⟩ := List.mem_filter.mp hb
        refine ⟨hserves, hmem, fun sts2 heq hne => ?_⟩
        injection heq with heq2
        subst heq2
        exact absurd hem hne
      · rintro b hb hs -
        exact List.mem_filter.mpr ⟨hb, hs⟩
    · refine ⟨((paginateFirstPage db).filter (fun b => busServesStop b sid)).filter
        (fun b => sts.contains b.status), ?_, ?_, ?_, ?_, ?_⟩
      · simp [handleBusStopRequest, hsid, hres, hem]
      · intro b hb
        obtain ⟨hb1, hst⟩ := List.mem_filter.mp hb
        obtain ⟨hmem, hserves⟩ := List.mem_filter.mp hb1
        refine ⟨hserves, hmem, fun sts2 heq hne => ?_⟩
        injection heq with heq2
        subst heq2
        exact hst
      · intro b hb hs hcond
        exact List.mem_filter.mpr
          ⟨List.mem_filter.mpr ⟨hb, hs⟩, hcond sts rfl hem⟩
      · exact hsorted.sublist (List.filter_sublist _)
      · intro hall
        rw [hempty hall]
        rfl

/-- Counterexample to C9: in db9 the trip mkBus 11 serves stop s9, yet the
stop query for s9 returns the empty list, because the handler takes the
first page of ALL trips (the ten earliest, none serving s9) before
filtering — the response does not contain exactly the trips serving the
stop. -/
theorem claim_C9_cx :
    handleBusStopRequest db9 (some "s9") none = .busStopResponse [] ∧
    busServesStop (mkBus 11 routeServes) "s9" = true ∧
    mkBus 11 routeServes ∈ db9.buses := by
  refine ⟨by decide, by decide, by simp [db9]⟩

/-- Witness for the amended C9 at db9: the reply for s9 is a
busStopResponse with the stated soundness, completeness, order and
empty-result properties. -/
theorem claim_C9_witness :
    ∃ out, handleBusStopRequest db9 (some "s9") none = .busStopResponse out ∧
      (∀ b, b ∈ out → busServesStop b "s9" = true ∧ b ∈ paginateFirstPage db9 ∧
        (∀ sts, (none : Option (List String)) = some sts → ¬ sts.isEmpty = true →
          sts.contains b.status = true)) ∧
      (∀ b, b ∈ paginateFirstPage db9 → busServesStop b "s9" = true →
        (∀ sts, (none : Option (List String)) = some sts → ¬ sts.isEmpty = true →
          sts.contains b.status = true) → b ∈ out) ∧
      List.Sorted createdLe out ∧
      ((∀ b, b ∈ db9.buses → busServesStop b "s9" = false) → out = []) :=
  claim_C9_amended db9 "s9" none (by decide) (by decide)

/-- C10: if the atomic persistence write fails, none of the derived
metrics computed in memory are applied — the run ends in the generic error
and the store, hence the trip, is exactly the input store.  Settled on the
draft variant whose write executes (src/unnamed/part_000 lines 172-176,
the single store mutation of the whole update); in src/index.js the write
is not even reached and every run leaves the store unchanged (claim C2). -/
theorem claim_C10 (hdist : HDist) (now : ℕ) (db : Store) (id : String)
    (lat lng : ℚ) :
    (draft1UpdateBusLocation hdist now false db id lat lng).1 = db ∧
    (draft1UpdateBusLocation hdist now false db id lat lng).2
      = .error (.err "Error updating bus location") := by
  rcases draft1Body_cases hdist now false db id lat lng with ⟨e, he⟩ |
    ⟨-, -, -, -, -, -, -, -, -, -, -, -, -, -, hw, -⟩
  · constructor
    · unfold draft1UpdateBusLocation
      rw [he]
    · unfold draft1UpdateBusLocation
      rw [he]
  · simp at hw
